import Mathlib

/-!
Shallow embedding of the ws-proxy gateway
(`src/servers/ws-proxy-rust/src/main.rs`): the per-connection protocol
dispatcher, the stream table, the reader tasks, the fetch pipeline and the
body/data codec.  External collaborators (the base64 crate's STANDARD
engine, serde_json serialization, the HTTP client, the TLS library, the
network) are modelled by explicit definitions or by per-request outcome
oracles; the repository's own control flow is translated line by line.
Machine integers (`u64` ids and counters, `u16` ports and statuses) are
modelled as `Nat`: the only arithmetic performed on them in the source is
`next_stream_id += 1`, whose `u64` wrap-around is unreachable in any real
session (it would require 2^64 successful `tcp_open`s).
-/

namespace WsProxy

/-- Model of the base64 crate's STANDARD alphabet (RFC 4648). -/
def b64Alphabet : List Char :=
  "ABCDEFGHIJKLMNOPQRSTUVWXYZabcdefghijklmnopqrstuvwxyz0123456789+/".toList

/-- Sextet to alphabet character. -/
def encChar (n : Nat) : Char := b64Alphabet.getD n 'A'

/-- Alphabet character back to its sextet. -/
def decChar (c : Char) : Option Nat :=
  if 'A' ≤ c ∧ c ≤ 'Z' then some (c.toNat - 65)
  else if 'a' ≤ c ∧ c ≤ 'z' then some (c.toNat - 71)
  else if '0' ≤ c ∧ c ≤ '9' then some (c.toNat + 4)
  else if c = '+' then some 62
  else if c = '/' then some 63
  else none

/-- Standard base64 encoding with padding, on bytes as `Nat`s below 256.
Models `general_purpose::STANDARD.encode`. -/
def base64EncodeList : List Nat → List Char
  | [] => []
  | [b0] => [encChar (b0 / 4), encChar ((b0 % 4) * 16), '=', '=']
  | [b0, b1] =>
      [encChar (b0 / 4), encChar ((b0 % 4) * 16 + b1 / 16),
       encChar ((b1 % 16) * 4), '=']
  | b0 :: b1 :: b2 :: rest =>
      encChar (b0 / 4) :: encChar ((b0 % 4) * 16 + b1 / 16) ::
      encChar ((b1 % 16) * 4 + b2 / 64) :: encChar (b2 % 64) ::
      base64EncodeList rest

/-- Decode one four-character base64 group, allowing terminal padding. -/
def b64DecGroup (c0 c1 c2 c3 : Char) : Except String (List Nat) :=
  match decChar c0 with
  | none => Except.error "invalid base64 symbol"
  | some s0 =>
    match decChar c1 with
    | none => Except.error "invalid base64 symbol"
    | some s1 =>
      match decChar c2 with
      | none =>
          if c2 = '=' ∧ c3 = '=' then Except.ok [s0 * 4 + s1 / 16]
          else Except.error "invalid base64 symbol"
      | some s2 =>
        match decChar c3 with
        | none =>
            if c3 = '=' then
              Except.ok [s0 * 4 + s1 / 16, (s1 % 16) * 16 + s2 / 4]
            else Except.error "invalid base64 symbol"
        | some s3 =>
            Except.ok [s0 * 4 + s1 / 16, (s1 % 16) * 16 + s2 / 4,
                       (s2 % 4) * 64 + s3]

/-- Standard base64 decoding, four characters at a time.
Models `general_purpose::STANDARD.decode`. -/
def base64DecodeList : List Char → Except String (List Nat)
  | [] => Except.ok []
  | c0 :: c1 :: c2 :: c3 :: rest =>
      match b64DecGroup c0 c1 c2 c3 with
      | Except.error e => Except.error e
      | Except.ok g =>
        match base64DecodeList rest with
        | Except.error e => Except.error e
        | Except.ok r => Except.ok (g ++ r)
  | _ => Except.error "invalid base64 length"

/-- String-level base64 encode, as used for outbound bodies and data. -/
def base64EncodeStr (bs : List Nat) : String := String.mk (base64EncodeList bs)

/-- String-level base64 decode, as used for inbound bodies and data. -/
def base64DecodeStr (s : String) : Except String (List Nat) :=
  base64DecodeList s.toList

/-- UTF-8 bytes of a string, modelling `body.as_bytes().to_vec()`. -/
def utf8Bytes (s : String) : List Nat := s.toUTF8.toList.map (fun b => b.toNat)

/-- Translation of `decode_body` (main.rs lines 175-184).  The Rust `match`
on `encoding.as_deref()` with string-literal patterns is rendered as the
equivalent equality chain, arms in source order. -/
def decode_body (body : Option String) (encoding : Option String) :
    Except String (List Nat) :=
  match body with
  | none => Except.ok []
  | some b =>
    match encoding with
    | some enc =>
        if enc = "base64" then
          match base64DecodeStr b with
          | Except.ok bs => Except.ok bs
          | Except.error e => Except.error ("base64 decode error: " ++ e)
        else if enc = "json" ∨ enc = "utf8" then Except.ok (utf8Bytes b)
        else Except.error ("unsupported body encoding: " ++ enc)
    | none => Except.ok (utf8Bytes b)

/-- Translation of `encode_body` (main.rs lines 186-192). -/
def encode_body (bytes : List Nat) : Option String × Option String :=
  if bytes.isEmpty then (none, none)
  else (some (base64EncodeStr bytes), some "base64")

/-- Per-entry loop of `header_map_from_hash`: the external
`HeaderName::from_bytes` / `HeaderValue::from_str` parsers are oracles
returning an error message or acceptance.  The built `HeaderMap` itself is
external; only the accepted entries and the first error are observable. -/
def buildHeaders (nameErr valErr : String → Option String) :
    List (String × String) → Except String (List (String × String))
  | [] => Except.ok []
  | (k, v) :: rest =>
    match nameErr k with
    | some e => Except.error ("invalid header name " ++ k ++ ": " ++ e)
    | none =>
      match valErr v with
      | some e => Except.error ("invalid header value " ++ k ++ ": " ++ e)
      | none =>
        match buildHeaders nameErr valErr rest with
        | Except.error e => Except.error e
        | Except.ok hs => Except.ok ((k, v) :: hs)

/-- Translation of `header_map_from_hash` (main.rs lines 194-206); the
`HashMap` iteration order is unspecified in Rust and is modelled by the
list order. -/
def header_map_from_hash (nameErr valErr : String → Option String)
    (headers : Option (List (String × String))) :
    Except String (List (String × String)) :=
  match headers with
  | none => Except.ok []
  | some hs => buildHeaders nameErr valErr hs

/-- Inbound `fetch` request (main.rs lines 21-31). -/
structure FetchRequest where
  type : String
  id : Nat
  url : String
  method : Option String
  headers : Option (List (String × String))
  body : Option String
  body_encoding : Option String
deriving Repr, DecidableEq

/-- Outbound `fetch` response (main.rs lines 33-43). -/
structure FetchResponse where
  type : String
  id : Nat
  status : Nat
  headers : List (String × String)
  body : Option String
  body_encoding : Option String
  error : Option String
deriving Repr, DecidableEq

/-- Inbound `tcp_open` request (main.rs lines 45-55). -/
structure TcpOpenRequest where
  type : String
  id : Nat
  host : String
  port : Nat
  tls : Option Bool
  server_name : Option String
  insecure : Option Bool
deriving Repr, DecidableEq

/-- Inbound `tcp_write` request (main.rs lines 57-65). -/
structure TcpWriteRequest where
  type : String
  id : Nat
  stream_id : Nat
  data : Option String
  data_encoding : Option String
deriving Repr, DecidableEq

/-- Inbound `tcp_close` request (main.rs lines 67-73). -/
structure TcpCloseRequest where
  type : String
  id : Nat
  stream_id : Nat
deriving Repr, DecidableEq

/-- Outbound `tcp_open` response (main.rs lines 75-83). -/
structure TcpOpenResponse where
  type : String
  id : Nat
  stream_id : Option Nat
  ok : Bool
  error : Option String
deriving Repr, DecidableEq

/-- Outbound `tcp_write` response (main.rs lines 85-92). -/
structure TcpWriteResponse where
  type : String
  id : Nat
  ok : Bool
  error : Option String
deriving Repr, DecidableEq

/-- Unsolicited `tcp_data` message (main.rs lines 94-101). -/
structure TcpDataMessage where
  type : String
  stream_id : Nat
  data : String
  data_encoding : String
deriving Repr, DecidableEq

/-- Solicited or unsolicited `tcp_close` message (main.rs lines 103-109).
Note it carries the `stream_id`, never the request `id`. -/
structure TcpCloseMessage where
  type : String
  stream_id : Nat
  error : Option String
deriving Repr, DecidableEq

/-- One outbound frame sent through the serializer queue. -/
inductive Frame where
  | fetchResp (r : FetchResponse)
  | tcpOpenResp (r : TcpOpenResponse)
  | tcpWriteResp (r : TcpWriteResponse)
  | tcpData (m : TcpDataMessage)
  | tcpCloseMsg (m : TcpCloseMessage)
deriving Repr, DecidableEq

/-- Request-correlation id of a frame, when the frame carries one.
`tcp_data` and `tcp_close` messages have no `id` field. -/
def frameId : Frame → Option Nat
  | Frame.fetchResp r => some r.id
  | Frame.tcpOpenResp r => some r.id
  | Frame.tcpWriteResp r => some r.id
  | Frame.tcpData _ => none
  | Frame.tcpCloseMsg _ => none

/-- Wire `type` string of a frame. -/
def frameType : Frame → String
  | Frame.fetchResp r => r.type
  | Frame.tcpOpenResp r => r.type
  | Frame.tcpWriteResp r => r.type
  | Frame.tcpData m => m.type
  | Frame.tcpCloseMsg m => m.type

/-- Writer-half variants held by the stream table (main.rs lines 170-173);
the actual socket write halves are external handles. -/
inductive StreamWriter where
  | Plain
  | Tls
deriving Repr, DecidableEq

/-- Removal from the stream table, modelling `HashMap::remove`. -/
def tableRemove (t : List (Nat × StreamWriter)) (k : Nat) :
    List (Nat × StreamWriter) :=
  t.filter (fun p => p.1 != k)

/-- Insertion into the stream table, modelling `HashMap::insert`. -/
def tableInsert (t : List (Nat × StreamWriter)) (k : Nat) (w : StreamWriter) :
    List (Nat × StreamWriter) :=
  (k, w) :: tableRemove t k

/-- Lookup in the stream table, modelling `HashMap::get_mut`. -/
def tableGet (t : List (Nat × StreamWriter)) (k : Nat) : Option StreamWriter :=
  (t.find? (fun p => p.1 == k)).map Prod.snd

/-- Per-session dispatcher state: the stream table and the stream-id
counter (main.rs lines 249-251). -/
structure SessionState where
  streams : List (Nat × StreamWriter)
  next_stream_id : Nat
deriving Repr, DecidableEq

/-- Session state right after the WebSocket is accepted: empty table,
counter at 1. -/
def initialState : SessionState := ⟨[], 1⟩

/-- Observable result of one dispatcher step: the new state, the frames
pushed onto the outbound queue, and the `write_all` calls issued to
streams (stream id paired with the bytes handed to `write_all`). -/
structure StepOut where
  state : SessionState
  frames : List Frame
  writes : List (Nat × List Nat)
deriving Repr

/-- Outcome of a received HTTP response, as observed by the handler:
`resp.status().as_u16()`, the headers after `headers_to_hash` coercion,
and the result of `resp.bytes()`. -/
structure FetchNetResp where
  status : Nat
  headers : List (String × String)
  bodyResult : Except String (List Nat)

/-- Environment oracle for one `fetch` request: the external method
parser, header parsers, and the outcome of `req_builder.send()`. -/
structure FetchEnv where
  methodErr : String → Option String
  hdrNameErr : String → Option String
  hdrValErr : String → Option String
  sendResult : Except String FetchNetResp

/-- Environment oracle for one `tcp_open` request: outcomes of
`TcpStream::connect`, `ServerName::try_from`, and the TLS handshake. -/
structure TcpOpenEnv where
  connectErr : Option String
  serverNameErr : String → Option String
  handshakeErr : Option String

/-- Environment oracle for one `tcp_write` request: outcome of
`write_all` on the looked-up writer. -/
structure TcpWriteEnv where
  writeErr : Option String

/-- Model of the rustls client configuration built by `make_tls_config`
(main.rs lines 145-168): only the verifier choice is observable. -/
structure ClientConfigModel where
  insecureVerifier : Bool
deriving Repr, DecidableEq

/-- Translation of `make_tls_config`: both the insecure and the verified
branch return `Ok`; the `Result` error type is never inhabited. -/
def make_tls_config (insecure : Bool) : Except String ClientConfigModel :=
  if insecure then Except.ok ⟨true⟩ else Except.ok ⟨false⟩

/-- Translation of the `fetch` arm of the dispatcher (main.rs lines
275-390).  Exactly one `FetchResponse` is produced on every path. -/
def handleFetch (env : FetchEnv) (req : FetchRequest) : FetchResponse :=
  let method := req.method.getD "GET"
  match env.methodErr method with
  | some e => ⟨"fetch", req.id, 0, [], none, none, some ("invalid method: " ++ e)⟩
  | none =>
    match header_map_from_hash env.hdrNameErr env.hdrValErr req.headers with
    | Except.error e => ⟨"fetch", req.id, 0, [], none, none, some e⟩
    | Except.ok _headers =>
      match decode_body req.body req.body_encoding with
      | Except.error e => ⟨"fetch", req.id, 0, [], none, none, some e⟩
      | Except.ok _body =>
        match env.sendResult with
        | Except.error e =>
            ⟨"fetch", req.id, 0, [], none, none, some ("fetch error: " ++ e)⟩
        | Except.ok nr =>
          match nr.bodyResult with
          | Except.error e =>
              ⟨"fetch", req.id, nr.status, nr.headers, none, none,
               some ("read body error: " ++ e)⟩
          | Except.ok bytes =>
              ⟨"fetch", req.id, nr.status, nr.headers,
               (encode_body bytes).1, (encode_body bytes).2, none⟩

/-- Translation of the `tcp_open` arm of the dispatcher (main.rs lines
392-569).  The reader task spawned on success is modelled separately by
`readerRun`. -/
def handleTcpOpen (env : TcpOpenEnv) (st : SessionState)
    (req : TcpOpenRequest) : StepOut :=
  match env.connectErr with
  | some e =>
      ⟨st, [Frame.tcpOpenResp
        ⟨"tcp_open", req.id, none, false, some ("connect error: " ++ e)⟩], []⟩
  | none =>
    let stream_id := st.next_stream_id
    let st' : SessionState := { st with next_stream_id := st.next_stream_id + 1 }
    let use_tls := req.tls.getD false
    let insecure := req.insecure.getD false
    if use_tls then
      let server_name := req.server_name.getD req.host
      match env.serverNameErr server_name with
      | some e =>
          ⟨st', [Frame.tcpOpenResp
            ⟨"tcp_open", req.id, none, false, some ("bad server name: " ++ e)⟩], []⟩
      | none =>
        match make_tls_config insecure with
        | Except.error e =>
            ⟨st', [Frame.tcpOpenResp
              ⟨"tcp_open", req.id, none, false, some e⟩], []⟩
        | Except.ok _cfg =>
          match env.handshakeErr with
          | some e =>
              ⟨st', [Frame.tcpOpenResp
                ⟨"tcp_open", req.id, none, false,
                 some ("tls handshake error: " ++ e)⟩], []⟩
          | none =>
              ⟨{ st' with streams := tableInsert st'.streams stream_id StreamWriter.Tls },
               [Frame.tcpOpenResp ⟨"tcp_open", req.id, some stream_id, true, none⟩], []⟩
    else
      ⟨{ st' with streams := tableInsert st'.streams stream_id StreamWriter.Plain },
       [Frame.tcpOpenResp ⟨"tcp_open", req.id, some stream_id, true, none⟩], []⟩

/-- Translation of the `tcp_write` arm of the dispatcher (main.rs lines
571-629): decode the data, look up the writer, `write_all`. -/
def handleTcpWrite (env : TcpWriteEnv) (st : SessionState)
    (req : TcpWriteRequest) : StepOut :=
  match decode_body req.data req.data_encoding with
  | Except.error e =>
      ⟨st, [Frame.tcpWriteResp ⟨"tcp_write", req.id, false, some e⟩], []⟩
  | Except.ok data =>
    match tableGet st.streams req.stream_id with
    | none =>
        ⟨st, [Frame.tcpWriteResp
          ⟨"tcp_write", req.id, false, some "unknown stream"⟩], []⟩
    | some _w =>
      match env.writeErr with
      | some e =>
          ⟨st, [Frame.tcpWriteResp
            ⟨"tcp_write", req.id, false, some ("write error: " ++ e)⟩],
           [(req.stream_id, data)]⟩
      | none =>
          ⟨st, [Frame.tcpWriteResp ⟨"tcp_write", req.id, true, none⟩],
           [(req.stream_id, data)]⟩

/-- Translation of the `tcp_close` arm of the dispatcher (main.rs lines
631-648): unconditional removal, then one `tcp_close` message echoing the
`stream_id` with no error. -/
def handleTcpClose (st : SessionState) (req : TcpCloseRequest) : StepOut :=
  ⟨{ st with streams := tableRemove st.streams req.stream_id },
   [Frame.tcpCloseMsg ⟨"tcp_close", req.stream_id, none⟩], []⟩

/-- Classification of one inbound WebSocket text (or lossily-decoded
binary) message after JSON parsing and `type` routing (main.rs lines
265-282, 393-399, 572-578, 632-638).  Requests carry the per-request
environment oracle for the external effects their handling performs. -/
inductive Inbound where
  | malformedJson
  | unknownType
  | badFetchPayload
  | badTcpOpenPayload
  | badTcpWritePayload
  | badTcpClosePayload
  | fetch (env : FetchEnv) (req : FetchRequest)
  | tcpOpen (env : TcpOpenEnv) (req : TcpOpenRequest)
  | tcpWrite (env : TcpWriteEnv) (req : TcpWriteRequest)
  | tcpClose (req : TcpCloseRequest)

/-- Protocol errors: malformed JSON, unknown `type`, or a malformed
payload for a known `type`; all are logged and dropped. -/
def protocolError : Inbound → Bool
  | Inbound.malformedJson => true
  | Inbound.unknownType => true
  | Inbound.badFetchPayload => true
  | Inbound.badTcpOpenPayload => true
  | Inbound.badTcpWritePayload => true
  | Inbound.badTcpClosePayload => true
  | _ => false

/-- One iteration of the dispatcher loop body (main.rs lines 253-649) on
an already-classified message. -/
def dispatchStep (st : SessionState) : Inbound → StepOut
  | Inbound.malformedJson => ⟨st, [], []⟩
  | Inbound.unknownType => ⟨st, [], []⟩
  | Inbound.badFetchPayload => ⟨st, [], []⟩
  | Inbound.badTcpOpenPayload => ⟨st, [], []⟩
  | Inbound.badTcpWritePayload => ⟨st, [], []⟩
  | Inbound.badTcpClosePayload => ⟨st, [], []⟩
  | Inbound.fetch env req => ⟨st, [Frame.fetchResp (handleFetch env req)], []⟩
  | Inbound.tcpOpen env req => handleTcpOpen env st req
  | Inbound.tcpWrite env req => handleTcpWrite env st req
  | Inbound.tcpClose req => handleTcpClose st req

/-- The dispatcher loop over a finite trace of inbound messages: every
step returns control to the loop, which continues with the next message. -/
def run (st : SessionState) : List Inbound → StepOut
  | [] => ⟨st, [], []⟩
  | m :: ms =>
    let o := dispatchStep st m
    let r := run o.state ms
    ⟨r.state, o.frames ++ r.frames, o.writes ++ r.writes⟩

/-- Translation of the reader-task loop (main.rs lines 478-514 and
521-557; the plain and TLS bodies are identical).  Each element of the
outcome list is one `reader.read(&mut buf)` result: `Except.ok bs` with
`bs` the bytes read (`Ok(0)`, the EOF case, is `Except.ok []` and is
matched first, exactly as in the source), `Except.error e` a read error.
A trace that ends without EOF/error models a still-running reader. -/
def readerRun (stream_id : Nat) :
    List (Except String (List Nat)) → List (Nat × StreamWriter) →
    List Frame × List (Nat × StreamWriter)
  | [], t => ([], t)
  | Except.ok [] :: _, t =>
      ([Frame.tcpCloseMsg ⟨"tcp_close", stream_id, none⟩], tableRemove t stream_id)
  | Except.ok bs :: rest, t =>
      let r := readerRun stream_id rest t
      (Frame.tcpData ⟨"tcp_data", stream_id, base64EncodeStr bs, "base64"⟩ :: r.1,
       r.2)
  | Except.error e :: _, t =>
      ([Frame.tcpCloseMsg ⟨"tcp_close", stream_id, some ("read error: " ++ e)⟩],
       tableRemove t stream_id)

/-- Bytes actually read from the stream along a trace of read outcomes,
up to the first EOF or error. -/
def bytesRead : List (Except String (List Nat)) → List Nat
  | [] => []
  | Except.ok [] :: _ => []
  | Except.ok bs :: rest => bs ++ bytesRead rest
  | Except.error _ :: _ => []

/-- Concatenation of the base64-decoded payloads of the `tcp_data` frames
of a frame list, in emission order. -/
def decodedData : List Frame → List Nat
  | [] => []
  | Frame.tcpData m :: fs =>
      (match base64DecodeStr m.data with
       | Except.ok bs => bs
       | Except.error _ => []) ++ decodedData fs
  | _ :: fs => decodedData fs

/-- Validity of a read-outcome trace: every chunk consists of genuine
bytes (below 256), as delivered by a real socket read. -/
def validOuts : List (Except String (List Nat)) → Bool
  | [] => true
  | Except.ok bs :: rest => bs.all (fun b => decide (b < 256)) && validOuts rest
  | Except.error _ :: rest => validOuts rest

/-- Stream ids of the successful `tcp_open` responses in a frame list, in
emission order. -/
def openOkIds (fs : List Frame) : List Nat :=
  fs.filterMap (fun f =>
    match f with
    | Frame.tcpOpenResp r => if r.ok then r.stream_id else none
    | _ => none)

/-- Lower-case hex digit, as serde_json uses in control-character
escapes. -/
def hexDigitStr (n : Nat) : String := String.mk [Nat.digitChar n]

/-- Escape of a single character inside a JSON string, modelling
serde_json's string serialization. -/
def jsonEscapeChar (c : Char) : String :=
  if c = '"' then "\\\""
  else if c = '\\' then "\\\\"
  else if c = '\x08' then "\\b"
  else if c = '\x0c' then "\\f"
  else if c = '\n' then "\\n"
  else if c = '\r' then "\\r"
  else if c = '\t' then "\\t"
  else if c.toNat < 32 then
    "\\u00" ++ hexDigitStr (c.toNat / 16) ++ hexDigitStr (c.toNat % 16)
  else String.mk [c]

/-- JSON string literal for a Lean string. -/
def jsonStr (s : String) : String :=
  "\"" ++ String.join (s.toList.map jsonEscapeChar) ++ "\""

/-- JSON value for an optional string: serde serializes `None` as `null`
(the struct derives `Serialize` with no `skip_serializing_if`). -/
def jsonOptStr : Option String → String
  | none => "null"
  | some s => jsonStr s

/-- JSON object for a string-to-string map (iteration order modelled by
the list order). -/
def jsonObjOfPairs (ps : List (String × String)) : String :=
  "\x7b" ++
    String.intercalate "," (ps.map (fun p => jsonStr p.1 ++ ":" ++ jsonStr p.2)) ++
    "\x7d"

/-- Model of `serde_json::to_string` on `FetchResponse` (main.rs lines
33-43): derived `Serialize` with `rename_all = "camelCase"` and no skip
attribute, so every field appears in declaration order and `None` fields
are serialized as explicit `null` members. -/
def serializeFetchResponse (r : FetchResponse) : String :=
  "\x7b" ++ "\"type\":" ++ jsonStr r.type ++
    ",\"id\":" ++ toString r.id ++
    ",\"status\":" ++ toString r.status ++
    ",\"headers\":" ++ jsonObjOfPairs r.headers ++
    ",\"body\":" ++ jsonOptStr r.body ++
    ",\"bodyEncoding\":" ++ jsonOptStr r.body_encoding ++
    ",\"error\":" ++ jsonOptStr r.error ++ "\x7d"

theorem decChar_encChar : ∀ s : Nat, s < 64 → decChar (encChar s) = some s := by
  decide

theorem decChar_pad : decChar '=' = none := by decide

/-- Round trip of the base64 model: decoding an encoding recovers the bytes,
for genuine bytes (below 256). -/
theorem base64_roundtrip :
    ∀ bs : List Nat, (∀ b ∈ bs, b < 256) →
      base64DecodeList (base64EncodeList bs) = Except.ok bs
  | [], _ => rfl
  | [b0], h => by
      have hb0 : b0 < 256 := h b0 (by simp)
      simp only [base64EncodeList, base64DecodeList, b64DecGroup]
      rw [decChar_encChar (b0 / 4) (by omega),
          decChar_encChar ((b0 % 4) * 16) (by omega)]
      simp [decChar_pad]
      all_goals omega
  | [b0, b1], h => by
      have hb0 : b0 < 256 := h b0 (by simp)
      have hb1 : b1 < 256 := h b1 (by simp)
      simp only [base64EncodeList, base64DecodeList, b64DecGroup]
      rw [decChar_encChar (b0 / 4) (by omega),
          decChar_encChar ((b0 % 4) * 16 + b1 / 16) (by omega),
          decChar_encChar ((b1 % 16) * 4) (by omega)]
      simp [decChar_pad]
      all_goals omega
  | b0 :: b1 :: b2 :: rest, h => by
      have hb0 : b0 < 256 := h b0 (by simp)
      have hb1 : b1 < 256 := h b1 (by simp)
      have hb2 : b2 < 256 := h b2 (by simp)
      have ih := base64_roundtrip rest (fun b hb => h b (by simp [hb]))
      simp only [base64EncodeList, base64DecodeList, b64DecGroup]
      rw [decChar_encChar (b0 / 4) (by omega),
          decChar_encChar ((b0 % 4) * 16 + b1 / 16) (by omega),
          decChar_encChar ((b1 % 16) * 4 + b2 / 64) (by omega),
          decChar_encChar (b2 % 64) (by omega)]
      rw [ih]
      simp
      all_goals omega

/-- String-level round trip. -/
theorem base64_roundtrip_str (bs : List Nat) (h : ∀ b ∈ bs, b < 256) :
    base64DecodeStr (base64EncodeStr bs) = Except.ok bs := by
  simpa [base64DecodeStr, base64EncodeStr] using base64_roundtrip bs h

/-- Removal really removes: a removed key is no longer found. -/
theorem tableGet_tableRemove (t : List (Nat × StreamWriter)) (k : Nat) :
    tableGet (tableRemove t k) k = none := by
  unfold tableGet tableRemove
  rw [List.find?_eq_none.mpr]
  · rfl
  · intro p hp
    have h := List.of_mem_filter hp
    simpa using h

/-- C9: every `tcp_close` request, whether or not its `streamId` is
currently in the StreamTable, removes any entry for that id from the
table and emits exactly one `tcp_close` frame echoing the `streamId`
with `error = null`. -/
theorem c9_tcp_close_always_removes_and_acks (st : SessionState)
    (req : TcpCloseRequest) :
    dispatchStep st (Inbound.tcpClose req) =
      ⟨⟨tableRemove st.streams req.stream_id, st.next_stream_id⟩,
       [Frame.tcpCloseMsg ⟨"tcp_close", req.stream_id, none⟩], []⟩ ∧
    tableGet (dispatchStep st (Inbound.tcpClose req)).state.streams req.stream_id
      = none := by
  exact ⟨rfl, tableGet_tableRemove _ _⟩

/-- C7 counterexample: a `tcp_write` whose `streamId` is absent from the
StreamTable but whose data carries an unsupported encoding is answered
with the encoding error, not with `error = "unknown stream"`, so the
claim as stated fails at this input. -/
theorem c7_counterexample :
    (dispatchStep initialState
        (Inbound.tcpWrite ⟨none⟩
          ⟨"tcp_write", 7, 999, some "x", some "hex"⟩)).frames =
      [Frame.tcpWriteResp ⟨"tcp_write", 7, false,
        some "unsupported body encoding: hex"⟩] ∧
    some "unsupported body encoding: hex" ≠ some "unknown stream" := by
  constructor
  · rfl
  · decide

/-- C7 (amended): for every `tcp_write` request whose body decode
succeeds and whose `streamId` is not present in the StreamTable, the
dispatcher emits exactly one `tcp_write` response with `ok = false` and
`error = "unknown stream"`, the session state is unchanged and no bytes
are written to any stream. -/
theorem c7_unknown_stream_write (env : TcpWriteEnv) (st : SessionState)
    (req : TcpWriteRequest) (bs : List Nat)
    (hdec : decode_body req.data req.data_encoding = Except.ok bs)
    (habs : tableGet st.streams req.stream_id = none) :
    dispatchStep st (Inbound.tcpWrite env req) =
      ⟨st, [Frame.tcpWriteResp ⟨"tcp_write", req.id, false, some "unknown stream"⟩],
       []⟩ := by
  simp [dispatchStep, handleTcpWrite, hdec, habs]

/-- C7 witness at a concrete input: empty table, `streamId = 999`, no
data. -/
theorem c7_witness :
    dispatchStep initialState
        (Inbound.tcpWrite ⟨none⟩ ⟨"tcp_write", 7, 999, none, none⟩) =
      ⟨initialState,
       [Frame.tcpWriteResp ⟨"tcp_write", 7, false, some "unknown stream"⟩], []⟩ :=
  c7_unknown_stream_write ⟨none⟩ initialState
    ⟨"tcp_write", 7, 999, none, none⟩ [] rfl rfl

/-- C10: decoding an inbound body/data whose body field is absent yields
the empty byte sequence and no error, whatever the encoding field says;
consequently a `fetch` or `tcp_write` without a body behaves identically
under any `bodyEncoding`/`dataEncoding` value, so it is never rejected
for its encoding field. -/
theorem c10_absent_body_ignores_encoding (enc : Option String) :
    decode_body none enc = Except.ok [] ∧
    (∀ (env : FetchEnv) (req : FetchRequest), req.body = none →
       handleFetch env req = handleFetch env { req with body_encoding := enc }) ∧
    (∀ (env : TcpWriteEnv) (st : SessionState) (req : TcpWriteRequest),
       req.data = none →
       dispatchStep st (Inbound.tcpWrite env req) =
         dispatchStep st (Inbound.tcpWrite env { req with data_encoding := enc })) := by
  refine ⟨rfl, ?_, ?_⟩
  · intro env req h
    cases req with
    | mk t i u m hs b be => cases h; rfl
  · intro env st req h
    cases req with
    | mk t i sid d de => cases h; rfl

/-- C10 witness: a concrete `tcp_write` with no data and encoding
`"hex"` is answered exactly like one with no encoding. -/
theorem c10_witness :
    decode_body none (some "hex") = Except.ok [] ∧
    dispatchStep initialState
        (Inbound.tcpWrite ⟨none⟩ ⟨"tcp_write", 7, 999, none, some "hex"⟩) =
      dispatchStep initialState
        (Inbound.tcpWrite ⟨none⟩
          { (⟨"tcp_write", 7, 999, none, some "hex"⟩ : TcpWriteRequest) with
              data_encoding := some "hex" }) :=
  ⟨(c10_absent_body_ignores_encoding (some "hex")).1,
   (c10_absent_body_ignores_encoding (some "hex")).2.2 ⟨none⟩ initialState
     ⟨"tcp_write", 7, 999, none, some "hex"⟩ rfl⟩

/-- C6: inbound body/data decoding recognizes `base64` (decode, errors
surfaced with a `base64 decode error` prefix), `json`, `utf8` and absent
(UTF-8 bytes of the string), and rejects any other encoding; the
rejection surfaces as a `status = 0` fetch response or an `ok = false`
`tcp_write` response. -/
theorem c6_inbound_encoding_dispatch (s other : String) :
    (∀ bs, base64DecodeStr s = Except.ok bs →
       decode_body (some s) (some "base64") = Except.ok bs) ∧
    (∀ e, base64DecodeStr s = Except.error e →
       decode_body (some s) (some "base64") =
         Except.error ("base64 decode error: " ++ e)) ∧
    decode_body (some s) (some "json") = Except.ok (utf8Bytes s) ∧
    decode_body (some s) (some "utf8") = Except.ok (utf8Bytes s) ∧
    decode_body (some s) none = Except.ok (utf8Bytes s) ∧
    (other ≠ "base64" → other ≠ "json" → other ≠ "utf8" →
       decode_body (some s) (some other) =
         Except.error ("unsupported body encoding: " ++ other)) ∧
    (∀ (env : FetchEnv) (req : FetchRequest) (hs : List (String × String)),
       other ≠ "base64" → other ≠ "json" → other ≠ "utf8" →
       env.methodErr (req.method.getD "GET") = none →
       header_map_from_hash env.hdrNameErr env.hdrValErr req.headers =
         Except.ok hs →
       req.body = some s → req.body_encoding = some other →
       handleFetch env req =
         ⟨"fetch", req.id, 0, [], none, none,
          some ("unsupported body encoding: " ++ other)⟩) ∧
    (∀ (env : TcpWriteEnv) (st : SessionState) (req : TcpWriteRequest),
       other ≠ "base64" → other ≠ "json" → other ≠ "utf8" →
       req.data = some s → req.data_encoding = some other →
       dispatchStep st (Inbound.tcpWrite env req) =
         ⟨st, [Frame.tcpWriteResp ⟨"tcp_write", req.id, false,
           some ("unsupported body encoding: " ++ other)⟩], []⟩) := by
  refine ⟨?_, ?_, rfl, rfl, rfl, ?_, ?_, ?_⟩
  · intro bs h
    simp [decode_body, h]
  · intro e h
    simp [decode_body, h]
  · intro h1 h2 h3
    simp [decode_body, h1, h2, h3]
  · intro env req hs h1 h2 h3 hm hh hb he
    simp [handleFetch, hm, hh, hb, he, decode_body, h1, h2, h3]
  · intro env st req h1 h2 h3 hd he
    simp [dispatchStep, handleTcpWrite, hd, he, decode_body, h1, h2, h3]

/-- C6 witness at concrete inputs: `"aGk="` decodes under `base64`,
`"hi"` under `utf8`, and a concrete `tcp_write` with encoding `"hex"` is
rejected with the unsupported-encoding error. -/
theorem c6_witness :
    decode_body (some "aGk=") (some "base64") = Except.ok [104, 105] ∧
    decode_body (some "hi") (some "utf8") = Except.ok (utf8Bytes "hi") ∧
    dispatchStep initialState
        (Inbound.tcpWrite ⟨none⟩ ⟨"tcp_write", 3, 1, some "hi", some "hex"⟩) =
      ⟨initialState, [Frame.tcpWriteResp ⟨"tcp_write", 3, false,
        some ("unsupported body encoding: " ++ "hex")⟩], []⟩ :=
  ⟨(c6_inbound_encoding_dispatch "aGk=" "hex").1 [104, 105] (by rfl),
   (c6_inbound_encoding_dispatch "hi" "hex").2.2.2.1,
   (c6_inbound_encoding_dispatch "hi" "hex").2.2.2.2.2.2.2 ⟨none⟩ initialState
     ⟨"tcp_write", 3, 1, some "hi", some "hex"⟩ (by decide) (by decide)
     (by decide) rfl rfl⟩

set_option maxRecDepth 4000 in
/-- C5 counterexample: the serialized form of a fetch response with an
empty body carries explicit `"body":null` and `"bodyEncoding":null`
members (serde serializes `None` as `null`; the struct has no
`skip_serializing_if` attribute), so the fields are not absent from the
JSON as the claim states. -/
theorem c5_counterexample :
    encode_body [] = ((none : Option String), none) ∧
    ("\"body\":null".toList <:+:
      (serializeFetchResponse ⟨"fetch", 1, 200, [], none, none, none⟩).toList) ∧
    ("\"bodyEncoding\":null".toList <:+:
      (serializeFetchResponse ⟨"fetch", 1, 200, [], none, none, none⟩).toList) := by
  refine ⟨rfl, ?_, ?_⟩ <;> decide

set_option maxRecDepth 4000 in
/-- C5 (amended): non-empty body bytes are emitted as base64 with
`bodyEncoding = "base64"`; empty body bytes set both fields to `None`,
which the serializer renders as explicit `null` members (present in the
JSON, not omitted and not empty strings). -/
theorem c5_outbound_body_encoding (bytes : List Nat) (h : bytes ≠ []) :
    encode_body bytes = (some (base64EncodeStr bytes), some "base64") ∧
    encode_body [] = ((none : Option String), none) ∧
    serializeFetchResponse ⟨"fetch", 1, 200, [], none, none, none⟩ =
      "\x7b\"type\":\"fetch\",\"id\":1,\"status\":200,\"headers\":\x7b\x7d,\"body\":null,\"bodyEncoding\":null,\"error\":null\x7d" := by
  refine ⟨?_, rfl, by decide⟩
  have hb : bytes.isEmpty = false := by
    cases bytes with
    | nil => cases h rfl
    | cons a l => rfl
  simp [encode_body, hb]

/-- C5 witness at a concrete non-empty body. -/
theorem c5_witness :
    encode_body [104, 105] = (some (base64EncodeStr [104, 105]), some "base64") :=
  (c5_outbound_body_encoding [104, 105] (by decide)).1

/-- C8: a fetch whose HTTP send succeeds but whose body read fails is
answered preserving the received status and captured headers, with
`body = null`, no `bodyEncoding`, and `error = "read body error: …"`;
the four pre-response failures (invalid method, invalid header, body
decode, transport) answer with `status = 0`, and whenever a response was
received the emitted status is the received one. -/
theorem c8_fetch_read_body_failure (env : FetchEnv) (req : FetchRequest)
    (nr : FetchNetResp) :
    (∀ hs bs e,
       env.methodErr (req.method.getD "GET") = none →
       header_map_from_hash env.hdrNameErr env.hdrValErr req.headers =
         Except.ok hs →
       decode_body req.body req.body_encoding = Except.ok bs →
       env.sendResult = Except.ok nr →
       nr.bodyResult = Except.error e →
       handleFetch env req =
         ⟨"fetch", req.id, nr.status, nr.headers, none, none,
          some ("read body error: " ++ e)⟩) ∧
    (∀ em, env.methodErr (req.method.getD "GET") = some em →
       handleFetch env req =
         ⟨"fetch", req.id, 0, [], none, none,
          some ("invalid method: " ++ em)⟩) ∧
    (∀ he, env.methodErr (req.method.getD "GET") = none →
       header_map_from_hash env.hdrNameErr env.hdrValErr req.headers =
         Except.error he →
       handleFetch env req = ⟨"fetch", req.id, 0, [], none, none, some he⟩) ∧
    (∀ hs de, env.methodErr (req.method.getD "GET") = none →
       header_map_from_hash env.hdrNameErr env.hdrValErr req.headers =
         Except.ok hs →
       decode_body req.body req.body_encoding = Except.error de →
       handleFetch env req = ⟨"fetch", req.id, 0, [], none, none, some de⟩) ∧
    (∀ hs bs se, env.methodErr (req.method.getD "GET") = none →
       header_map_from_hash env.hdrNameErr env.hdrValErr req.headers =
         Except.ok hs →
       decode_body req.body req.body_encoding = Except.ok bs →
       env.sendResult = Except.error se →
       handleFetch env req =
         ⟨"fetch", req.id, 0, [], none, none, some ("fetch error: " ++ se)⟩) ∧
    (∀ hs bs, env.methodErr (req.method.getD "GET") = none →
       header_map_from_hash env.hdrNameErr env.hdrValErr req.headers =
         Except.ok hs →
       decode_body req.body req.body_encoding = Except.ok bs →
       env.sendResult = Except.ok nr →
       (handleFetch env req).status = nr.status ∧
       (handleFetch env req).headers = nr.headers) := by
  refine ⟨?_, ?_, ?_, ?_, ?_, ?_⟩
  · intro hs bs e hm hh hd hsend hb
    simp [handleFetch, hm, hh, hd, hsend, hb]
  · intro em hm
    simp [handleFetch, hm]
  · intro he hm hh
    simp [handleFetch, hm, hh]
  · intro hs de hm hh hd
    simp [handleFetch, hm, hh, hd]
  · intro hs bs se hm hh hd hsend
    simp [handleFetch, hm, hh, hd, hsend]
  · intro hs bs hm hh hd hsend
    cases hb : nr.bodyResult with
    | error e => simp [handleFetch, hm, hh, hd, hsend, hb]
    | ok bytes => simp [handleFetch, hm, hh, hd, hsend, hb]

/-- C8 witness: a concrete fetch whose send yields status 200 with a
body-read failure is answered with status 200 and the read-body error. -/
theorem c8_witness :
    handleFetch
        ⟨fun _ => none, fun _ => none, fun _ => none,
         Except.ok ⟨200, [("server", "stub")], Except.error "timeout"⟩⟩
        ⟨"fetch", 2, "http://host/path", none, none, none, none⟩ =
      ⟨"fetch", 2, 200, [("server", "stub")], none, none,
       some ("read body error: " ++ "timeout")⟩ :=
  (c8_fetch_read_body_failure
      ⟨fun _ => none, fun _ => none, fun _ => none,
       Except.ok ⟨200, [("server", "stub")], Except.error "timeout"⟩⟩
      ⟨"fetch", 2, "http://host/path", none, none, none, none⟩
      ⟨200, [("server", "stub")], Except.error "timeout"⟩).1
    [] [] "timeout" rfl rfl rfl rfl rfl

/-- The rustls configuration builder never fails: both the insecure and
the verified branch return `Ok`. -/
theorem make_tls_config_eq (b : Bool) : make_tls_config b = Except.ok ⟨b⟩ := by
  cases b <;> rfl

/-- C4: after a successful TCP connect, a `tcp_open` with `tls = true`
whose server-name parse or TLS handshake fails is answered `ok = false`,
`streamId = null`, yet the stream-id counter has been incremented, so the
consumed id is invisible to the client and the next successful open
returns the next id; a `tcp_open` whose connect itself fails leaves the
counter untouched. -/
theorem c4_tls_failure_consumes_stream_id (st : SessionState)
    (env : TcpOpenEnv) (req : TcpOpenRequest) :
    (∀ e, req.tls = some true → env.connectErr = none →
       env.serverNameErr (req.server_name.getD req.host) = some e →
       handleTcpOpen env st req =
         ⟨⟨st.streams, st.next_stream_id + 1⟩,
          [Frame.tcpOpenResp ⟨"tcp_open", req.id, none, false,
            some ("bad server name: " ++ e)⟩], []⟩) ∧
    (∀ e, req.tls = some true → env.connectErr = none →
       env.serverNameErr (req.server_name.getD req.host) = none →
       env.handshakeErr = some e →
       handleTcpOpen env st req =
         ⟨⟨st.streams, st.next_stream_id + 1⟩,
          [Frame.tcpOpenResp ⟨"tcp_open", req.id, none, false,
            some ("tls handshake error: " ++ e)⟩], []⟩) ∧
    (∀ e, env.connectErr = some e →
       (handleTcpOpen env st req).state = st) ∧
    (∀ (env2 : TcpOpenEnv) (req2 : TcpOpenRequest),
       env2.connectErr = none → req2.tls = none →
       openOkIds (handleTcpOpen env2
           ⟨st.streams, st.next_stream_id + 1⟩ req2).frames =
         [st.next_stream_id + 1]) := by
  refine ⟨?_, ?_, ?_, ?_⟩
  · intro e h1 h2 h3
    simp [handleTcpOpen, h1, h2, h3]
  · intro e h1 h2 h3 h4
    simp [handleTcpOpen, make_tls_config_eq, h1, h2, h3, h4]
  · intro e h
    simp [handleTcpOpen, h]
  · intro env2 req2 h1 h2
    simp [handleTcpOpen, openOkIds, h1, h2]

/-- C4 witness: concrete server-name failure after a successful connect,
then a concrete successful plain open returning the next id. -/
theorem c4_witness :
    handleTcpOpen ⟨none, fun _ => some "not a valid name", none⟩ initialState
        ⟨"tcp_open", 5, "127.0.0.1", 443, some true, some "bad host!", none⟩ =
      ⟨⟨[], 2⟩, [Frame.tcpOpenResp ⟨"tcp_open", 5, none, false,
        some ("bad server name: " ++ "not a valid name")⟩], []⟩ ∧
    openOkIds (handleTcpOpen ⟨none, fun _ => none, none⟩ ⟨[], 2⟩
        ⟨"tcp_open", 6, "127.0.0.1", 80, none, none, none⟩).frames = [2] :=
  ⟨((c4_tls_failure_consumes_stream_id initialState
      ⟨none, fun _ => some "not a valid name", none⟩
      ⟨"tcp_open", 5, "127.0.0.1", 443, some true, some "bad host!", none⟩).1
      "not a valid name" rfl rfl rfl),
   ((c4_tls_failure_consumes_stream_id initialState
      ⟨none, fun _ => some "not a valid name", none⟩
      ⟨"tcp_open", 5, "127.0.0.1", 443, some true, some "bad host!", none⟩).2.2.2
      ⟨none, fun _ => none, none⟩
      ⟨"tcp_open", 6, "127.0.0.1", 80, none, none, none⟩ rfl rfl)⟩

/-- Successful-open ids distribute over frame concatenation. -/
theorem openOkIds_append (a b : List Frame) :
    openOkIds (a ++ b) = openOkIds a ++ openOkIds b := by
  simp [openOkIds]

/-- Per-step effect on the counter and the successful-open ids: a step
either emits no successful `tcp_open` response and never decreases the
counter, or emits exactly the current counter value and increments it. -/
theorem step_counter_openOk (st : SessionState) (m : Inbound) :
    (openOkIds (dispatchStep st m).frames = [] ∧
     st.next_stream_id ≤ (dispatchStep st m).state.next_stream_id) ∨
    (openOkIds (dispatchStep st m).frames = [st.next_stream_id] ∧
     (dispatchStep st m).state.next_stream_id = st.next_stream_id + 1) := by
  cases m with
  | malformedJson => exact Or.inl ⟨rfl, le_refl _⟩
  | unknownType => exact Or.inl ⟨rfl, le_refl _⟩
  | badFetchPayload => exact Or.inl ⟨rfl, le_refl _⟩
  | badTcpOpenPayload => exact Or.inl ⟨rfl, le_refl _⟩
  | badTcpWritePayload => exact Or.inl ⟨rfl, le_refl _⟩
  | badTcpClosePayload => exact Or.inl ⟨rfl, le_refl _⟩
  | fetch env req => exact Or.inl ⟨rfl, le_refl _⟩
  | tcpClose req => exact Or.inl ⟨rfl, le_refl _⟩
  | tcpWrite env req =>
      left
      simp only [dispatchStep]
      unfold handleTcpWrite
      repeat' split
      all_goals exact ⟨rfl, le_refl _⟩
  | tcpOpen env req =>
      obtain ⟨ce, se, he⟩ := env
      cases ce with
      | some e => exact Or.inl ⟨rfl, le_refl _⟩
      | none =>
        by_cases ht : req.tls.getD false = true
        · cases hs : se (req.server_name.getD req.host) with
          | some e =>
              left
              constructor <;>
                simp [dispatchStep, handleTcpOpen, ht, hs, openOkIds]
          | none =>
            cases he with
            | some e =>
                left
                constructor <;>
                  simp [dispatchStep, handleTcpOpen, make_tls_config_eq, ht, hs,
                        openOkIds]
            | none =>
                right
                constructor <;>
                  simp [dispatchStep, handleTcpOpen, make_tls_config_eq, ht, hs,
                        openOkIds]
        · right
          constructor <;> simp [dispatchStep, handleTcpOpen, ht, openOkIds]

/-- Along any trace, the successful-open ids are strictly increasing,
bounded below by the starting counter and above by the final counter,
and the counter never decreases. -/
theorem run_openOk : ∀ (ms : List Inbound) (st : SessionState),
    List.Pairwise (· < ·) (openOkIds (run st ms).frames) ∧
    st.next_stream_id ≤ (run st ms).state.next_stream_id ∧
    ∀ i ∈ openOkIds (run st ms).frames,
      st.next_stream_id ≤ i ∧ i < (run st ms).state.next_stream_id
  | [], st => by simp [run, openOkIds]
  | m :: ms, st => by
      obtain ⟨ih1, ih2, ih3⟩ := run_openOk ms (dispatchStep st m).state
      simp only [run]
      rcases step_counter_openOk st m with ⟨h1, h2⟩ | ⟨h1, h2⟩
      · simp only [openOkIds_append, h1, List.nil_append]
        exact ⟨ih1, le_trans h2 ih2,
               fun i hi => ⟨le_trans h2 (ih3 i hi).1, (ih3 i hi).2⟩⟩
      · simp only [openOkIds_append, h1, List.singleton_append]
        refine ⟨?_, ?_, ?_⟩
        · refine List.pairwise_cons.mpr ⟨?_, ih1⟩
          intro i hi
          have := (ih3 i hi).1
          omega
        · omega
        · intro i hi
          rcases List.mem_cons.mp hi with rfl | hi
          · exact ⟨le_refl _, by omega⟩
          · exact ⟨by have := (ih3 i hi).1; omega, (ih3 i hi).2⟩

/-- C3: within one session the stream-id counter starts at 1 and never
decreases across dispatcher steps, and along any trace the `streamId`
values returned by successful `tcp_open` responses are strictly
increasing, so none is ever reused. -/
theorem c3_stream_id_monotonicity :
    initialState.next_stream_id = 1 ∧
    (∀ (st : SessionState) (m : Inbound),
       st.next_stream_id ≤ (dispatchStep st m).state.next_stream_id) ∧
    (∀ ms : List Inbound,
       List.Pairwise (· < ·) (openOkIds (run initialState ms).frames)) := by
  refine ⟨rfl, ?_, ?_⟩
  · intro st m
    rcases step_counter_openOk st m with ⟨_, h⟩ | ⟨_, h⟩
    · exact h
    · omega
  · intro ms
    exact (run_openOk ms initialState).1

/-- Concatenating the decoded `tcp_data` payloads of a reader run, in
emission order, recovers exactly the bytes read from the stream. -/
theorem reader_concat (stream_id : Nat) :
    ∀ (outs : List (Except String (List Nat))) (t : List (Nat × StreamWriter)),
    validOuts outs = true →
    decodedData (readerRun stream_id outs t).1 = bytesRead outs
  | [], _, _ => rfl
  | Except.ok [] :: _, _, _ => rfl
  | Except.error _ :: _, _, _ => rfl
  | Except.ok (b :: bs') :: rest, t, h => by
      have hv : (b :: bs').all (fun x => decide (x < 256)) = true ∧
          validOuts rest = true := by
        simpa [validOuts] using h
      have hb : ∀ x ∈ b :: bs', x < 256 := by
        intro x hx
        have := List.all_eq_true.mp hv.1 x hx
        simpa using this
      have ih := reader_concat stream_id rest t hv.2
      simp only [readerRun, decodedData, bytesRead]
      rw [base64_roundtrip_str (b :: bs') hb]
      simp [ih]

/-- C2: each reader iteration that reads n > 0 bytes emits exactly one
`tcp_data` frame carrying the base64 encoding of those bytes with
`dataEncoding = "base64"` and leaves the StreamTable unchanged; EOF emits
`tcp_close` with `error = null`, removes the stream and stops; a read
error emits `tcp_close` with `error = "read error: …"`, removes the
stream and stops; concatenating the decoded `tcp_data` payloads in
emission order equals the byte sequence read from the stream. -/
theorem c2_reader_task (stream_id : Nat)
    (outs rest : List (Except String (List Nat)))
    (t : List (Nat × StreamWriter)) (bs : List Nat) :
    (bs ≠ [] →
       readerRun stream_id (Except.ok bs :: rest) t =
         (Frame.tcpData ⟨"tcp_data", stream_id, base64EncodeStr bs, "base64"⟩ ::
            (readerRun stream_id rest t).1,
          (readerRun stream_id rest t).2)) ∧
    (readerRun stream_id (Except.ok [] :: rest) t =
       ([Frame.tcpCloseMsg ⟨"tcp_close", stream_id, none⟩],
        tableRemove t stream_id)) ∧
    (∀ e, readerRun stream_id (Except.error e :: rest) t =
       ([Frame.tcpCloseMsg ⟨"tcp_close", stream_id, some ("read error: " ++ e)⟩],
        tableRemove t stream_id)) ∧
    (validOuts outs = true →
       decodedData (readerRun stream_id outs t).1 = bytesRead outs) := by
  refine ⟨?_, rfl, fun e => rfl, reader_concat stream_id outs t⟩
  intro h
  cases bs with
  | nil => cases h rfl
  | cons b bs' => rfl

/-- C2 witness at a concrete run: two bytes read, then EOF. -/
theorem c2_witness :
    readerRun 5 (Except.ok [104, 105] :: [Except.ok []])
        [(5, StreamWriter.Plain)] =
      (Frame.tcpData ⟨"tcp_data", 5, base64EncodeStr [104, 105], "base64"⟩ ::
         (readerRun 5 [Except.ok []] [(5, StreamWriter.Plain)]).1,
       (readerRun 5 [Except.ok []] [(5, StreamWriter.Plain)]).2) ∧
    decodedData (readerRun 5 [Except.ok [104, 105], Except.ok []]
        [(5, StreamWriter.Plain)]).1 =
      bytesRead [Except.ok [104, 105], Except.ok []] :=
  ⟨(c2_reader_task 5 [Except.ok [104, 105], Except.ok []] [Except.ok []]
      [(5, StreamWriter.Plain)] [104, 105]).1 (by decide),
   (c2_reader_task 5 [Except.ok [104, 105], Except.ok []] [Except.ok []]
      [(5, StreamWriter.Plain)] [104, 105]).2.2.2 (by decide)⟩

/-- Every fetch handling path answers with the request id and type
`"fetch"`. -/
theorem handleFetch_shape (env : FetchEnv) (req : FetchRequest) :
    (handleFetch env req).id = req.id ∧ (handleFetch env req).type = "fetch" := by
  simp only [handleFetch]
  repeat' split
  all_goals exact ⟨rfl, rfl⟩

/-- Every `tcp_open` handling path emits exactly one response carrying
the request id and type `"tcp_open"`. -/
theorem handleTcpOpen_shape (env : TcpOpenEnv) (st : SessionState)
    (req : TcpOpenRequest) :
    ∃ r : TcpOpenResponse,
      (handleTcpOpen env st req).frames = [Frame.tcpOpenResp r] ∧
      r.id = req.id ∧ r.type = "tcp_open" := by
  simp only [handleTcpOpen]
  repeat' split
  all_goals exact ⟨_, rfl, rfl, rfl⟩

/-- Every `tcp_write` handling path emits exactly one response carrying
the request id and type `"tcp_write"`. -/
theorem handleTcpWrite_shape (env : TcpWriteEnv) (st : SessionState)
    (req : TcpWriteRequest) :
    ∃ r : TcpWriteResponse,
      (handleTcpWrite env st req).frames = [Frame.tcpWriteResp r] ∧
      r.id = req.id ∧ r.type = "tcp_write" := by
  simp only [handleTcpWrite]
  repeat' split
  all_goals exact ⟨_, rfl, rfl, rfl⟩

/-- C1 counterexample: a `tcp_close` request with `id = 11` is answered
by exactly one frame, but that frame carries no `id` field at all (it
echoes the `streamId` instead), so it does not have "the same id" as the
request and the claim as stated fails at this input. -/
theorem c1_counterexample :
    (dispatchStep initialState
        (Inbound.tcpClose ⟨"tcp_close", 11, 1⟩)).frames.map frameId = [none] ∧
    (none : Option Nat) ≠ some 11 := by
  exact ⟨rfl, by decide⟩

/-- C1 (amended): protocol errors (malformed JSON, unknown type, bad
payload) emit no frame and leave the state unchanged; every handled
`fetch`, `tcp_open` and `tcp_write` request emits exactly one response
frame with the same id and matching type; every handled `tcp_close`
request emits exactly one frame of matching type echoing the `streamId`
but carrying no request id; and the dispatch loop always continues with
the remaining messages, whatever the step produced. -/
theorem c1_response_discipline (st : SessionState) (m : Inbound) :
    (protocolError m = true → dispatchStep st m = ⟨st, [], []⟩) ∧
    (∀ env req, m = Inbound.fetch env req →
       ∃ r : FetchResponse, (dispatchStep st m).frames = [Frame.fetchResp r] ∧
         r.id = req.id ∧ r.type = "fetch") ∧
    (∀ env req, m = Inbound.tcpOpen env req →
       ∃ r : TcpOpenResponse,
         (dispatchStep st m).frames = [Frame.tcpOpenResp r] ∧
         r.id = req.id ∧ r.type = "tcp_open") ∧
    (∀ env req, m = Inbound.tcpWrite env req →
       ∃ r : TcpWriteResponse,
         (dispatchStep st m).frames = [Frame.tcpWriteResp r] ∧
         r.id = req.id ∧ r.type = "tcp_write") ∧
    (∀ req, m = Inbound.tcpClose req →
       (dispatchStep st m).frames =
         [Frame.tcpCloseMsg ⟨"tcp_close", req.stream_id, none⟩]) ∧
    (∀ ms, run st (m :: ms) =
       ⟨(run (dispatchStep st m).state ms).state,
        (dispatchStep st m).frames ++ (run (dispatchStep st m).state ms).frames,
        (dispatchStep st m).writes ++ (run (dispatchStep st m).state ms).writes⟩) := by
  refine ⟨?_, ?_, ?_, ?_, ?_, fun ms => rfl⟩
  · intro h
    cases m <;> simp_all [protocolError, dispatchStep]
  · intro env req h
    subst h
    exact ⟨handleFetch env req, rfl, (handleFetch_shape env req).1,
           (handleFetch_shape env req).2⟩
  · intro env req h
    subst h
    exact handleTcpOpen_shape env st req
  · intro env req h
    subst h
    exact handleTcpWrite_shape env st req
  · intro req h
    subst h
    rfl

/-- C1 witness: a malformed message emits nothing; a concrete `tcp_write`
request with id 9 is answered by exactly one `tcp_write` frame with
id 9. -/
theorem c1_witness :
    dispatchStep initialState Inbound.malformedJson = ⟨initialState, [], []⟩ ∧
    (∃ r : TcpWriteResponse,
       (dispatchStep initialState
          (Inbound.tcpWrite ⟨none⟩ ⟨"tcp_write", 9, 1, none, none⟩)).frames =
         [Frame.tcpWriteResp r] ∧ r.id = 9 ∧ r.type = "tcp_write") :=
  ⟨(c1_response_discipline initialState Inbound.malformedJson).1 rfl,
   (c1_response_discipline initialState
      (Inbound.tcpWrite ⟨none⟩ ⟨"tcp_write", 9, 1, none, none⟩)).2.2.2.1
     ⟨none⟩ ⟨"tcp_write", 9, 1, none, none⟩ rfl⟩

end WsProxy
